import Mathlib

/-!
Verification of the rtc package (real-time clock Ticker/Timer library).

The development shallowly embeds the Go source:
pure computations (record decoding, the missed-tick arithmetic, the frame
counter, the calendar/register time conversions) become Lean functions on
Nat/Int with explicit modular reduction where the Go code uses fixed-width
machine integers; the constructors' effect sequences are embedded as
functions returning an error option together with the list of device
operations performed; and the goroutine/channel behaviour of the Ticker and
Timer readers is embedded as explicit interleaved transition systems.
-/

namespace Rtc

/-!  Interrupt-record decoding, from src/ticker.go lines 69-82 and
src/unnamed/part_002 lines 640-653:

  r := binary.LittleEndian.Uint32(buf)
  cnt := r >> 8
  ... Missed: cnt - 1 ...      (cnt is a uint32; the subtraction wraps)
-/

/-- binary.LittleEndian.Uint32 applied to the 4-byte record buf:
the value b0 + 256*b1 + 65536*b2 + 16777216*b3 for bytes b0..b3. -/
def leUint32 (b0 b1 b2 b3 : Nat) : Nat :=
  b0 + 256 * b1 + 65536 * b2 + 16777216 * b3

/-- cnt := r >> 8 on a uint32, the repeat count of the interrupt record. -/
def repeatCount (r : Nat) : Nat := r >>> 8

/-- Missed: cnt - 1, computed in uint32 arithmetic (wraps at 0). -/
def tickMissed (cnt : Nat) : Nat := (cnt + 4294967295) % 4294967296

/-!  Frame counter of the Ticker reader, from src/unnamed/part_002
lines 657-662 (identically src/ticker.go lines 87-91):

  t.frame = t.frame + 1      (frame is a Go uint, wraps at 2^64)
  if t.frame >= frequency { t.frame = 0 }
-/

/-- One frame-counter update of the Ticker reader loop. -/
def frameStep (frequency frame : Nat) : Nat :=
  if frequency ≤ (frame + 1) % 18446744073709551616 then 0
  else (frame + 1) % 18446744073709551616

/-- Frame field of the n-th delivered Tick: the counter starts at 0
(src/unnamed/part_002 line 618, frame: 0) and is advanced by frameStep
after each delivery. -/
def frameAt (frequency : Nat) : Nat → Nat
  | 0 => 0
  | n + 1 => frameStep frequency (frameAt frequency n)

/-- Auxiliary: a successor modulo an arbitrary base can be computed from the
previous residue. -/
theorem succ_mod_eq (n f : Nat) : (n + 1) % f = (n % f + 1) % f := by
  conv_lhs => rw [← Nat.mod_add_div n f]
  rw [Nat.add_right_comm, Nat.add_mul_mod_self_left]

/-- Auxiliary: the byte-wise bounds give the uint32 range of the record. -/
theorem leUint32_lt (b0 b1 b2 b3 : Nat) (h0 : b0 < 256) (h1 : b1 < 256)
    (h2 : b2 < 256) (h3 : b3 < 256) : leUint32 b0 b1 b2 b3 < 4294967296 := by
  unfold leUint32; omega

/-- Auxiliary: the repeat count of a well-formed record, as a function of its
bytes. -/
theorem repeatCount_leUint32 (b0 b1 b2 b3 : Nat) (h0 : b0 < 256) :
    repeatCount (leUint32 b0 b1 b2 b3) = b1 + 256 * b2 + 65536 * b3 := by
  unfold repeatCount leUint32
  rw [Nat.shiftRight_eq_div_pow]
  have hpow : (2 : Nat) ^ 8 = 256 := by norm_num
  rw [hpow]
  omega

/-- Auxiliary: the repeat count occupies 24 bits. -/
theorem repeatCount_lt (b0 b1 b2 b3 : Nat) (h0 : b0 < 256) (h1 : b1 < 256)
    (h2 : b2 < 256) (h3 : b3 < 256) :
    repeatCount (leUint32 b0 b1 b2 b3) < 16777216 := by
  rw [repeatCount_leUint32 b0 b1 b2 b3 h0]; omega

/-- Claim C8: the event reader decodes each 4-byte interrupt record as a
little-endian 32-bit value; the low byte is the interrupt-source bitmask and
the upper 24 bits are the repeat count, i.e. repeatCount = value div 256. -/
theorem interrupt_record_decode (b0 b1 b2 b3 : Nat) (h0 : b0 < 256)
    (h1 : b1 < 256) (h2 : b2 < 256) (h3 : b3 < 256) :
    leUint32 b0 b1 b2 b3 < 4294967296 ∧
    leUint32 b0 b1 b2 b3 % 256 = b0 ∧
    repeatCount (leUint32 b0 b1 b2 b3) = leUint32 b0 b1 b2 b3 / 256 ∧
    repeatCount (leUint32 b0 b1 b2 b3) = b1 + 256 * b2 + 65536 * b3 ∧
    repeatCount (leUint32 b0 b1 b2 b3) < 16777216 := by
  refine ⟨leUint32_lt b0 b1 b2 b3 h0 h1 h2 h3, ?_, ?_,
    repeatCount_leUint32 b0 b1 b2 b3 h0, repeatCount_lt b0 b1 b2 b3 h0 h1 h2 h3⟩
  · unfold leUint32; omega
  · unfold repeatCount
    rw [Nat.shiftRight_eq_div_pow]

/-- Witness for C8: the decode equations evaluated on the concrete record
with bytes 4, 3, 2, 1. -/
theorem interrupt_record_decode_witness :
    (4 : Nat) < 256 ∧
    (leUint32 4 3 2 1 < 4294967296 ∧
     leUint32 4 3 2 1 % 256 = 4 ∧
     repeatCount (leUint32 4 3 2 1) = leUint32 4 3 2 1 / 256 ∧
     repeatCount (leUint32 4 3 2 1) = 3 + 256 * 2 + 65536 * 1 ∧
     repeatCount (leUint32 4 3 2 1) < 16777216) :=
  ⟨by decide,
   interrupt_record_decode 4 3 2 1 (by decide) (by decide) (by decide) (by decide)⟩

/-- Counterexample for C1: on the record with bytes 1,0,0,0 (repeat count 0)
the Missed arithmetic wraps to 2^32 - 1 instead of clamping to 0. -/
theorem tick_missed_not_clamped :
    repeatCount (leUint32 1 0 0 0) = 0 ∧
    tickMissed (repeatCount (leUint32 1 0 0 0)) = 4294967295 ∧
    tickMissed (repeatCount (leUint32 1 0 0 0)) ≠ 0 := by
  refine ⟨by decide, ?_, ?_⟩ <;> decide

/-- Claim C1 (amended): for every decoded interrupt record whose repeat count
is at least 1 (a repeat count of 1, also on the very first read, meaning zero
missed), the Missed field equals the repeat count minus one; the arithmetic
is wrapping uint32 subtraction, so it never clamps (see the counterexample
for repeat count 0). -/
theorem tick_missed_eq_repeat_minus_one (b0 b1 b2 b3 : Nat) (h0 : b0 < 256)
    (h1 : b1 < 256) (h2 : b2 < 256) (h3 : b3 < 256)
    (hge : 1 ≤ repeatCount (leUint32 b0 b1 b2 b3)) :
    tickMissed (repeatCount (leUint32 b0 b1 b2 b3)) =
      repeatCount (leUint32 b0 b1 b2 b3) - 1 := by
  have hlt := repeatCount_lt b0 b1 b2 b3 h0 h1 h2 h3
  unfold tickMissed
  omega

/-- Witness for C1: the amended statement evaluated on the record with bytes
0,2,0,0, whose repeat count is 2. -/
theorem tick_missed_eq_repeat_minus_one_witness :
    1 ≤ repeatCount (leUint32 0 2 0 0) ∧
    tickMissed (repeatCount (leUint32 0 2 0 0)) =
      repeatCount (leUint32 0 2 0 0) - 1 :=
  ⟨by decide,
   tick_missed_eq_repeat_minus_one 0 2 0 0 (by decide) (by decide) (by decide)
     (by decide) (by decide)⟩

/-- Auxiliary: the frame counter of a Ticker with positive frequency below
2^64 walks through the residues modulo the frequency. -/
theorem frameAt_mod (f : Nat) (hf : 0 < f) (hlt : f < 18446744073709551616) :
    ∀ n, frameAt f n = n % f := by
  intro n
  induction n with
  | zero => simp [frameAt]
  | succ n ih =>
    have hx : n % f < f := Nat.mod_lt _ hf
    rw [frameAt, ih]
    unfold frameStep
    rw [Nat.mod_eq_of_lt (show n % f + 1 < 18446744073709551616 by omega)]
    conv_rhs => rw [succ_mod_eq]
    by_cases hcase : f ≤ n % f + 1
    · have hEq : n % f + 1 = f := by omega
      rw [if_pos hcase, hEq, Nat.mod_self]
    · rw [if_neg hcase]
      exact (Nat.mod_eq_of_lt (by omega)).symm

/-- Claim C6: for a Ticker with frequency f > 0 (f a Go uint, hence below
2^64), the Frame fields of successive delivered Ticks are 0,1,...,f-1,0,...:
the first is 0, every Frame is strictly below f, each successive Frame is the
predecessor plus one modulo f, and the n-th Frame is n mod f. -/
theorem ticker_frame_sequence (f n : Nat) (hf : 0 < f)
    (hlt : f < 18446744073709551616) :
    frameAt f 0 = 0 ∧
    frameAt f n < f ∧
    frameAt f (n + 1) = (frameAt f n + 1) % f ∧
    frameAt f n = n % f := by
  have h := frameAt_mod f hf hlt
  refine ⟨h 0, ?_, ?_, h n⟩
  · rw [h n]; exact Nat.mod_lt _ hf
  · rw [h (n + 1), h n]
    conv_lhs => rw [succ_mod_eq]

/-- Witness for C6: the frame sequence facts evaluated at frequency 3 for the
seventh delivered Tick. -/
theorem ticker_frame_sequence_witness :
    0 < 3 ∧
    (frameAt 3 0 = 0 ∧
     frameAt 3 7 < 3 ∧
     frameAt 3 (7 + 1) = (frameAt 3 7 + 1) % 3 ∧
     frameAt 3 7 = 7 % 3) :=
  ⟨by decide, ticker_frame_sequence 3 7 (by decide) (by decide)⟩

/-!  Constructor effect models.

A Device records which of the underlying device operations would succeed.
Each constructor is embedded as a function returning the error it reports
(none on success) together with the ordered list of device operations it
performed, mirroring the early-return structure of the Go source.  The
openDev and closeDev effects record a successfully created and a released
descriptor; the other effects record attempted configuration ioctls.
-/

/-- Operations the constructors perform on the device. -/
inductive Eff where
  | openDev
  | closeDev
  | setFrequency
  | setPeriodicInterrupt
  | getTime
  | setAlarm
  | setAlarmInterrupt
  | setUpdateInterrupt
  deriving DecidableEq, Repr

/-- Outcome environment: which device operations succeed. -/
structure Device where
  openOk : Bool
  getTimeOk : Bool
  setFrequencyOk : Bool
  setPeriodicInterruptOk : Bool
  setAlarmOk : Bool
  setAlarmInterruptOk : Bool
  setUpdateInterruptOk : Bool
  deriving DecidableEq, Repr

/-- NewTicker construction sequence, from src/unnamed/part_002 lines 590-608
(identically src/ticker.go lines 29-47): reject frequency 0, open the
device, set the frequency, enable the periodic interrupt; on a configuration
failure the handle is closed before the error is returned. -/
def newTickerEff (d : Device) (frequency : Nat) : Option String × List Eff :=
  if frequency = 0 then
    (some "zero frequency for NewTicker", [])
  else if d.openOk = false then
    (some "failed to open rtc", [])
  else if d.setFrequencyOk = false then
    (some "failed to set real-time clock frequency",
     [Eff.openDev, Eff.setFrequency, Eff.closeDev])
  else if d.setPeriodicInterruptOk = false then
    (some "failed to set real-time clock interrupts",
     [Eff.openDev, Eff.setFrequency, Eff.setPeriodicInterrupt, Eff.closeDev])
  else
    (none, [Eff.openDev, Eff.setFrequency, Eff.setPeriodicInterrupt])

/-- NewTimerAt construction sequence, from src/unnamed/part_005
lines 195-248: open the device, set the alarm, enable the alarm interrupt;
on a configuration failure the handle is closed before the error is
returned. -/
def newTimerAtEff (d : Device) : Option String × List Eff :=
  if d.openOk = false then
    (some "failed to open rtc", [])
  else if d.setAlarmOk = false then
    (some "failed to set real-time clock alarm",
     [Eff.openDev, Eff.setAlarm, Eff.closeDev])
  else if d.setAlarmInterruptOk = false then
    (some "failed to set real-time clock alarm interrupt",
     [Eff.openDev, Eff.setAlarm, Eff.setAlarmInterrupt, Eff.closeDev])
  else
    (none, [Eff.openDev, Eff.setAlarm, Eff.setAlarmInterrupt])

/-- NewTimer construction sequence, from src/unnamed/part_005 lines 252-271:
open the device, read the device time, set the alarm to that time plus the
duration, enable the alarm interrupt.  The source closes the handle on the
SetAlarm and SetAlarmInterrupt failure paths, but the GetTime failure path
(lines 258-261) returns the error without calling Close. -/
def newTimerEff (d : Device) : Option String × List Eff :=
  if d.openOk = false then
    (some "failed to open rtc", [])
  else if d.getTimeOk = false then
    (some "failed to read real-time clock time",
     [Eff.openDev, Eff.getTime])
  else if d.setAlarmOk = false then
    (some "failed to set real-time clock alarm",
     [Eff.openDev, Eff.getTime, Eff.setAlarm, Eff.closeDev])
  else if d.setAlarmInterruptOk = false then
    (some "failed to set real-time clock alarm interrupt",
     [Eff.openDev, Eff.getTime, Eff.setAlarm, Eff.setAlarmInterrupt,
      Eff.closeDev])
  else
    (none, [Eff.openDev, Eff.getTime, Eff.setAlarm, Eff.setAlarmInterrupt])

/-- Path-based SetPeriodicInterrupt, from src/unnamed/part_002 lines 225-232
(identically lines 74-81 of the earlier revision): on an open failure the
function returns nil, silently discarding the error; otherwise it toggles the
interrupt and closes the handle via defer. -/
def setPeriodicInterruptDev (d : Device) (enable : Bool) :
    Option String × List Eff :=
  if d.openOk = false then
    (none, [])
  else
    ((if d.setPeriodicInterruptOk then none
      else some "failed to set real-time clock interrupts"),
     [Eff.openDev, Eff.setPeriodicInterrupt, Eff.closeDev])

/-- Path-based SetAlarmInterrupt, from src/unnamed/part_002 lines 235-242:
on an open failure the function returns nil, silently discarding the
error. -/
def setAlarmInterruptDev (d : Device) (enable : Bool) :
    Option String × List Eff :=
  if d.openOk = false then
    (none, [])
  else
    ((if d.setAlarmInterruptOk then none
      else some "failed to set real-time clock alarm interrupt"),
     [Eff.openDev, Eff.setAlarmInterrupt, Eff.closeDev])

/-- Path-based SetUpdateInterrupt, from src/unnamed/part_002 lines 245-252:
on an open failure the function returns nil, silently discarding the
error. -/
def setUpdateInterruptDev (d : Device) (enable : Bool) :
    Option String × List Eff :=
  if d.openOk = false then
    (none, [])
  else
    ((if d.setUpdateInterruptOk then none
      else some "failed to set real-time clock update interrupt"),
     [Eff.openDev, Eff.setUpdateInterrupt, Eff.closeDev])

/-- Claim C7: for every device, NewTicker with frequency 0 returns the
validation error before performing any device operation at all; in
particular the device is never opened. -/
theorem newTicker_zero_frequency (d : Device) :
    newTickerEff d 0 = (some "zero frequency for NewTicker", []) := rfl

/-- Witness for C7: the zero-frequency rejection evaluated on a device on
which every operation would succeed. -/
theorem newTicker_zero_frequency_witness :
    newTickerEff ⟨true, true, true, true, true, true, true⟩ 0 =
      (some "zero frequency for NewTicker", []) :=
  newTicker_zero_frequency ⟨true, true, true, true, true, true, true⟩

/-- Claim C3 (code bug): on a device where opening succeeds but reading the
device time fails, NewTimer returns the GetTime error while the descriptor it
opened is never closed: the openDev effect is in its trace and closeDev is
not.  Every other configuration-failure path of NewTicker, NewTimerAt and
NewTimer does close the handle (closeDev is in the trace whenever openDev is
and an error is returned), which this theorem also records for the
corresponding failing devices. -/
theorem newTimer_getTime_leak :
    ((newTimerEff ⟨true, false, true, true, true, true, true⟩).1 =
       some "failed to read real-time clock time" ∧
     Eff.openDev ∈ (newTimerEff ⟨true, false, true, true, true, true, true⟩).2 ∧
     Eff.closeDev ∉ (newTimerEff ⟨true, false, true, true, true, true, true⟩).2) ∧
    (∀ d : Device, ∀ f : Nat,
      (newTickerEff d f).1 ≠ none → Eff.openDev ∈ (newTickerEff d f).2 →
        Eff.closeDev ∈ (newTickerEff d f).2) ∧
    (∀ d : Device,
      (newTimerAtEff d).1 ≠ none → Eff.openDev ∈ (newTimerAtEff d).2 →
        Eff.closeDev ∈ (newTimerAtEff d).2) ∧
    (∀ d : Device, d.getTimeOk = true →
      (newTimerEff d).1 ≠ none → Eff.openDev ∈ (newTimerEff d).2 →
        Eff.closeDev ∈ (newTimerEff d).2) := by
  refine ⟨by decide, ?_, ?_, ?_⟩
  · intro d f
    obtain ⟨o, g, sf, sp, sa, si, su⟩ := d
    unfold newTickerEff
    rcases o <;> rcases sf <;> rcases sp <;>
      by_cases hf : f = 0 <;> simp [hf]
  · intro d
    obtain ⟨o, g, sf, sp, sa, si, su⟩ := d
    unfold newTimerAtEff
    rcases o <;> rcases sa <;> rcases si <;> simp
  · intro d hg
    obtain ⟨o, g, sf, sp, sa, si, su⟩ := d
    cases hg
    unfold newTimerEff
    rcases o <;> rcases sa <;> rcases si <;> simp

/-- Claim C10: for each of the three path-based interrupt-toggle helpers, if
opening the device fails the helper returns a nil error and performs no
device operation: the open failure is silently swallowed and the toggle is
not attempted. -/
theorem interrupt_helpers_swallow_open_error (d : Device) (enable : Bool)
    (h : d.openOk = false) :
    setPeriodicInterruptDev d enable = (none, []) ∧
    setAlarmInterruptDev d enable = (none, []) ∧
    setUpdateInterruptDev d enable = (none, []) := by
  unfold setPeriodicInterruptDev setAlarmInterruptDev setUpdateInterruptDev
  rw [h]
  exact ⟨rfl, rfl, rfl⟩

/-- Witness for C10: the swallowed open failure evaluated on a concrete
device that cannot be opened. -/
theorem interrupt_helpers_swallow_open_error_witness :
    Device.openOk ⟨false, true, true, true, true, true, true⟩ = false ∧
    (setPeriodicInterruptDev ⟨false, true, true, true, true, true, true⟩ true =
       (none, []) ∧
     setAlarmInterruptDev ⟨false, true, true, true, true, true, true⟩ true =
       (none, []) ∧
     setUpdateInterruptDev ⟨false, true, true, true, true, true, true⟩ true =
       (none, [])) :=
  ⟨rfl, interrupt_helpers_swallow_open_error
    ⟨false, true, true, true, true, true, true⟩ true rfl⟩

/-!  Calendar/register time conversions, from src/rtc.go lines 32-53.

A whole-second UTC time.Time value is represented by its calendar
components (the values of the accessors Year, Month, Day, Hour, Minute,
Second); time.Date applied to in-range components constructs the time with
exactly those components.  The unix.RTCTime register struct has int32
fields, so every field conversion goes through two's-complement truncation
to 32 bits, embedded as int32wrap.
-/

/-- Two's-complement truncation of an integer to 32 bits: the meaning of a
Go int32(x) conversion. -/
def int32wrap (n : Int) : Int :=
  (n + 2147483648) % 4294967296 - 2147483648

/-- Calendar components of a whole-second UTC time.Time value. -/
structure GoCalendarTime where
  year : Int
  month : Int
  day : Int
  hour : Int
  minute : Int
  second : Int
  deriving DecidableEq, Repr

/-- Field values of a unix.RTCTime register struct (each field an int32). -/
structure RTCRegTime where
  sec : Int
  min : Int
  hour : Int
  mday : Int
  mon : Int
  year : Int
  deriving DecidableEq, Repr

/-- timeRtc.rtcTime from src/rtc.go lines 44-53: Sec: int32(t.Second()),
Min: int32(t.Minute()), Hour: int32(t.Hour()), Mday: int32(t.Day()),
Mon: int32(t.Month() - 1), Year: int32(t.Year() - 1900). -/
def timeRtcTime (t : GoCalendarTime) : RTCRegTime :=
  ⟨int32wrap t.second, int32wrap t.minute, int32wrap t.hour,
   int32wrap t.day, int32wrap (t.month - 1), int32wrap (t.year - 1900)⟩

/-- rtcTime.time from src/rtc.go lines 36-38: time.Date(int(r.Year+1900),
time.Month(r.Mon+1), int(r.Mday), int(r.Hour), int(r.Min), int(r.Sec), 0,
time.UTC); the additions Year+1900 and Mon+1 are int32 additions. -/
def rtcTimeTime (r : RTCRegTime) : GoCalendarTime :=
  ⟨int32wrap (r.year + 1900), int32wrap (r.mon + 1), r.mday,
   r.hour, r.min, r.sec⟩

/-- Auxiliary: truncation to 32 bits is the identity on the int32 range. -/
theorem int32wrap_eq_self (n : Int) (h1 : -2147483648 ≤ n)
    (h2 : n < 2147483648) : int32wrap n = n := by
  unfold int32wrap
  omega

/-- Counterexample for C9: for the whole-second UTC calendar time with year
1900 + 2^31 (and month January, day 1, midnight), converting to the register
format truncates the year offset to 32 bits, and converting back does not
return the original time. -/
theorem rtc_time_roundtrip_wraps :
    rtcTimeTime (timeRtcTime ⟨2147485548, 1, 1, 0, 0, 0⟩) ≠
      ⟨2147485548, 1, 1, 0, 0, 0⟩ ∧
    (rtcTimeTime (timeRtcTime ⟨2147485548, 1, 1, 0, 0, 0⟩)).year =
      -2147481748 := by
  refine ⟨?_, by decide⟩
  decide

/-- Claim C9 (amended): the two conversions are pure and mutually inverse at
whole-second precision for every UTC calendar time with zero sub-second
component whose year offset Year - 1900 fits the register's signed 32-bit
year field (equivalently 1900 - 2^31 ≤ Year < 2^31): converting such a time
to the register format (month stored zero-based as Month-1, year stored as
Year-1900) and back yields exactly the original time.  Outside that range
the int32 conversion wraps (see the counterexample). -/
theorem rtc_time_roundtrip (t : GoCalendarTime)
    (hy1 : -2147481748 ≤ t.year) (hy2 : t.year < 2147483648)
    (hmo1 : 1 ≤ t.month) (hmo2 : t.month ≤ 12)
    (hd1 : 1 ≤ t.day) (hd2 : t.day ≤ 31)
    (hh1 : 0 ≤ t.hour) (hh2 : t.hour ≤ 23)
    (hmi1 : 0 ≤ t.minute) (hmi2 : t.minute ≤ 59)
    (hs1 : 0 ≤ t.second) (hs2 : t.second ≤ 59) :
    rtcTimeTime (timeRtcTime t) = t := by
  obtain ⟨y, mo, d, h, mi, s⟩ := t
  simp only at hy1 hy2 hmo1 hmo2 hd1 hd2 hh1 hh2 hmi1 hmi2 hs1 hs2
  simp only [rtcTimeTime, timeRtcTime, GoCalendarTime.mk.injEq]
  refine ⟨?_, ?_, ?_, ?_, ?_, ?_⟩
  · rw [int32wrap_eq_self (y - 1900) (by omega) (by omega),
      int32wrap_eq_self (y - 1900 + 1900) (by omega) (by omega)]
    omega
  · rw [int32wrap_eq_self (mo - 1) (by omega) (by omega),
      int32wrap_eq_self (mo - 1 + 1) (by omega) (by omega)]
    omega
  · exact int32wrap_eq_self d (by omega) (by omega)
  · exact int32wrap_eq_self h (by omega) (by omega)
  · exact int32wrap_eq_self mi (by omega) (by omega)
  · exact int32wrap_eq_self s (by omega) (by omega)

/-- Witness for C9: the round trip evaluated on the concrete calendar time
2024-05-17 12:34:56 UTC. -/
theorem rtc_time_roundtrip_witness :
    (1 : Int) ≤ 5 ∧
    rtcTimeTime (timeRtcTime ⟨2024, 5, 17, 12, 34, 56⟩) =
      ⟨2024, 5, 17, 12, 34, 56⟩ :=
  ⟨by decide,
   rtc_time_roundtrip ⟨2024, 5, 17, 12, 34, 56⟩ (by decide) (by decide)
     (by decide) (by decide) (by decide) (by decide) (by decide) (by decide)
     (by decide) (by decide) (by decide) (by decide)⟩

/-!  Ticker reader/channel interleaving, from src/unnamed/part_002
lines 610-663:

  ch := make(chan Tick, 1)          -- capacity-1 outbound channel
  for { ... syscall.Read(...); ...; ch <- Tick{...}; ... }

The reader alternates between the blocking device read (atRead) and the
channel send (atSend).  A send on a Go channel of capacity 1 proceeds only
when the channel holds fewer than 1 element, otherwise the sending
goroutine blocks; the consumer's receive removes one element.  The system
below interleaves the reader's two steps with the consumer's receives.
-/

/-- Position of the Ticker reader goroutine: blocked in the device read or
at the channel send of the decoded Tick. -/
inductive TkPC where
  | atRead
  | atSend
  deriving DecidableEq, Repr

/-- Labels naming which party moves: the reader's read completion, the
reader's channel send, or the consumer's channel receive. -/
inductive TkLbl where
  | read
  | send
  | recv
  deriving DecidableEq, Repr

/-- State of the Ticker reader system: the reader's position and the number
of undelivered Ticks in the outbound channel. -/
structure TkState where
  rpc : TkPC
  chanLen : Nat
  deriving DecidableEq, Repr

/-- Interleaved steps of the Ticker reader loop and its consumer.  The send
step carries the Go channel semantics of ch <- Tick on a capacity-1
channel: it is enabled only while the channel holds fewer than 1 element. -/
inductive TkStep : TkLbl → TkState → TkState → Prop where
  | readDone (n : Nat) : TkStep TkLbl.read ⟨TkPC.atRead, n⟩ ⟨TkPC.atSend, n⟩
  | send (n : Nat) (h : n < 1) :
      TkStep TkLbl.send ⟨TkPC.atSend, n⟩ ⟨TkPC.atRead, n + 1⟩
  | recv (pc : TkPC) (n : Nat) : TkStep TkLbl.recv ⟨pc, n + 1⟩ ⟨pc, n⟩

/-- Reachability from the Ticker's start state: reader about to read, empty
channel. -/
def TkReach (s : TkState) : Prop :=
  Relation.ReflTransGen (fun a b => ∃ l, TkStep l a b) ⟨TkPC.atRead, 0⟩ s

/-- Auxiliary: an invariant holding initially and preserved by every step
holds in every reachable state of a transition system. -/
theorem reach_invariant {α : Type} {r : α → α → Prop} {P : α → Prop}
    {a b : α} (h0 : P a) (hstep : ∀ x y, P x → r x y → P y)
    (h : Relation.ReflTransGen r a b) : P b := by
  induction h with
  | refl => exact h0
  | tail _ hbc ih => exact hstep _ _ ih hbc

/-- Claim C5 as stated: the channel never holds more than one undelivered
event, and whenever the reader is at its delivery step some reader move
(a send, or any hypothetical drop) is enabled without the consumer acting
first. -/
def tickerChanClaim : Prop :=
  (∀ s, TkReach s → s.chanLen ≤ 1) ∧
  (∀ s, TkReach s → s.rpc = TkPC.atSend →
    ∃ l s', l ≠ TkLbl.recv ∧ TkStep l s s')

/-- Auxiliary: the state with the reader at the send point and the channel
already full is reachable (the consumer simply never receives). -/
theorem tk_full_send_reachable : TkReach ⟨TkPC.atSend, 1⟩ :=
  Relation.ReflTransGen.head ⟨TkLbl.read, TkStep.readDone 0⟩
    (Relation.ReflTransGen.head ⟨TkLbl.send, TkStep.send 0 (by omega)⟩
      (Relation.ReflTransGen.head ⟨TkLbl.read, TkStep.readDone 1⟩
        Relation.ReflTransGen.refl))

/-- Counterexample for C5: in the reachable state where the consumer has not
drained the previous Tick (channel full) and the reader has decoded the next
one, no reader step is enabled: the plain ch <- Tick send blocks until the
consumer receives, contradicting the claim that the reader never waits for
channel space. -/
theorem ticker_chan_claim_false : ¬ tickerChanClaim := by
  intro hclaim
  obtain ⟨l, s', hne, hstep⟩ :=
    hclaim.2 ⟨TkPC.atSend, 1⟩ tk_full_send_reachable rfl
  cases hstep with
  | send n h => omega
  | recv pc n => exact hne rfl

/-- Claim C5 (amended): the outbound channel of the Ticker holds at most one
undelivered event in every reachable state, but the reader's delivery step is
a plain blocking send: a send only ever happens from an empty channel, and
when the consumer has not drained the previous event the only enabled step is
the consumer's receive, so the hardware-read loop waits (interrupts arriving
meanwhile are coalesced by the kernel into the repeat count of the next
read). -/
theorem ticker_send_blocks_until_drained (s : TkState) (h : TkReach s) :
    s.chanLen ≤ 1 ∧
    (∀ s₁ s₂ : TkState, TkStep TkLbl.send s₁ s₂ → s₁.chanLen = 0) ∧
    (∀ l s', s.rpc = TkPC.atSend → s.chanLen = 1 →
      TkStep l s s' → l = TkLbl.recv) := by
  refine ⟨?_, ?_, ?_⟩
  · refine reach_invariant (P := fun s => s.chanLen ≤ 1) (by decide) ?_ h
    intro x y hx hr
    obtain ⟨l, hstep⟩ := hr
    cases hstep with
    | readDone n => exact hx
    | send n hn => show n + 1 ≤ 1; omega
    | recv pc n =>
      have hx' : n + 1 ≤ 1 := hx
      show n ≤ 1
      omega
  · intro s₁ s₂ hstep
    cases hstep with
    | send n hn => show n = 0; omega
  · intro l s' hpc hlen hstep
    obtain ⟨rpc, n⟩ := s
    simp only at hpc hlen
    subst hpc; subst hlen
    cases hstep with
    | send n h => omega
    | recv pc n => rfl

/-- Witness for C5: the amended statement evaluated at the reachable state
with the reader at the send point and the channel full. -/
theorem ticker_send_blocks_until_drained_witness :
    TkReach ⟨TkPC.atSend, 1⟩ ∧ (TkState.mk TkPC.atSend 1).chanLen ≤ 1 :=
  ⟨tk_full_send_reachable,
   (ticker_send_blocks_until_drained ⟨TkPC.atSend, 1⟩
     tk_full_send_reachable).1⟩

/-!  Timer reader / Stop interleaving, from src/unnamed/part_005
lines 195-322.

The reader goroutine performs a blocking read of the interrupt record
(atRead), then runs the select on timer.done (atSelect), then sends the
Alarm on the capacity-1 channel (atSend).  In NewTimerAt's reader the
select's default branch stores true into the atomic fired flag
(lines 229-234); in NewTimer's reader the select has the same shape but
stores nothing (lines 288-292).  Both readers then send the Alarm
unconditionally (lines 243-245 and 294-296).  Stop (lines 318-322) runs
close(t.done), then t.rtc.Close(), then returns t.fired.Load().  The
blocking read returns successfully once the alarm interrupt has fired while
the descriptor is open, and returns an error once the descriptor has been
closed, which makes the reader exit without sending.

The parameter storesFired of the step relation selects which reader is
modelled: true for NewTimerAt, false for NewTimer.
-/

/-- Position of the Timer reader goroutine. -/
inductive TmRdPC where
  | atRead
  | atSelect
  | atSend
  | exitedErr
  | exitedSent
  deriving DecidableEq, Repr

/-- Position of the caller executing Stop: before close(t.done), before
t.rtc.Close(), before returning t.fired.Load(), and returned. -/
inductive TmStPC where
  | s0
  | s1
  | s2
  | sdone
  deriving DecidableEq, Repr

/-- State of the Timer system: the two program counters, the done flag of
the cancellation channel, whether the descriptor is open, the atomic fired
flag, whether the hardware alarm interrupt has fired, the number of
undelivered Alarms in the channel, and the value returned by Stop once it
has returned. -/
structure TmState where
  rpc : TmRdPC
  spc : TmStPC
  done : Bool
  fdOpen : Bool
  fired : Bool
  alarmFired : Bool
  chanLen : Nat
  ret : Option Bool
  deriving DecidableEq, Repr

/-- Interleaved steps of the Timer reader goroutine, the hardware, the
consumer, and a single call to Stop. -/
inductive TmStep (storesFired : Bool) : TmState → TmState → Prop where
  | hwFire (rpc spc done fdOpen fired n ret) :
      TmStep storesFired ⟨rpc, spc, done, fdOpen, fired, false, n, ret⟩
        ⟨rpc, spc, done, fdOpen, fired, true, n, ret⟩
  | readDone (spc done fired n ret) :
      TmStep storesFired ⟨TmRdPC.atRead, spc, done, true, fired, true, n, ret⟩
        ⟨TmRdPC.atSelect, spc, done, true, fired, true, n, ret⟩
  | readFail (spc done fired af n ret) :
      TmStep storesFired ⟨TmRdPC.atRead, spc, done, false, fired, af, n, ret⟩
        ⟨TmRdPC.exitedErr, spc, done, false, fired, af, n, ret⟩
  | selectDone (spc done fdOpen fired af n ret) :
      TmStep storesFired ⟨TmRdPC.atSelect, spc, done, fdOpen, fired, af, n, ret⟩
        ⟨TmRdPC.atSend, spc, done, fdOpen,
         if done then fired else (if storesFired then true else fired),
         af, n, ret⟩
  | send (spc done fdOpen fired af n ret) (h : n < 1) :
      TmStep storesFired ⟨TmRdPC.atSend, spc, done, fdOpen, fired, af, n, ret⟩
        ⟨TmRdPC.exitedSent, spc, done, fdOpen, fired, af, n + 1, ret⟩
  | recv (rpc spc done fdOpen fired af n ret) :
      TmStep storesFired ⟨rpc, spc, done, fdOpen, fired, af, n + 1, ret⟩
        ⟨rpc, spc, done, fdOpen, fired, af, n, ret⟩
  | stopSignal (rpc done fdOpen fired af n ret) :
      TmStep storesFired ⟨rpc, TmStPC.s0, done, fdOpen, fired, af, n, ret⟩
        ⟨rpc, TmStPC.s1, true, fdOpen, fired, af, n, ret⟩
  | stopCloseFd (rpc done fdOpen fired af n ret) :
      TmStep storesFired ⟨rpc, TmStPC.s1, done, fdOpen, fired, af, n, ret⟩
        ⟨rpc, TmStPC.s2, done, false, fired, af, n, ret⟩
  | stopReturn (rpc done fdOpen fired af n ret) :
      TmStep storesFired ⟨rpc, TmStPC.s2, done, fdOpen, fired, af, n, ret⟩
        ⟨rpc, TmStPC.sdone, done, fdOpen, fired, af, n, some fired⟩

/-- Start state of a freshly constructed Timer: reader blocked in the read,
Stop not yet called, descriptor open, fired flag clear, alarm not yet fired,
channel empty. -/
def timerStart : TmState :=
  ⟨TmRdPC.atRead, TmStPC.s0, false, true, false, false, 0, none⟩

/-- Reachability of a Timer state from the start state. -/
def TmReach (storesFired : Bool) (s : TmState) : Prop :=
  Relation.ReflTransGen (TmStep storesFired) timerStart s

/-- Global invariant of the Timer system: the reader passes the read only
after the alarm has fired; until it has passed the select, the fired flag is
clear and the channel is empty; and Stop's return value is the fired flag it
loaded, so it can only be true once the flag was set. -/
def TmInv (s : TmState) : Prop :=
  (s.alarmFired = false → (s.rpc = TmRdPC.atRead ∨ s.rpc = TmRdPC.exitedErr)) ∧
  ((s.rpc = TmRdPC.atRead ∨ s.rpc = TmRdPC.exitedErr) →
    s.fired = false ∧ s.chanLen = 0) ∧
  (s.fired = false → s.ret ≠ some true)

/-- Auxiliary: the global Timer invariant is preserved by every step. -/
theorem tm_inv_step (storesFired : Bool) (x y : TmState) (hx : TmInv x)
    (hs : TmStep storesFired x y) : TmInv y := by
  obtain ⟨h1, h2, h3⟩ := hx
  cases hs <;>
    simp_all [TmInv] <;>
    aesop

/-- Auxiliary: every reachable Timer state satisfies the global invariant. -/
theorem tm_inv_reach (storesFired : Bool) (s : TmState)
    (h : TmReach storesFired s) : TmInv s := by
  refine reach_invariant ?_ (tm_inv_step storesFired) h
  refine ⟨?_, ?_, ?_⟩ <;> intro hh <;> simp_all [timerStart, TmInv]

/-- Quiescence predicate: once the descriptor is closed while the reader has
not passed its read, the reader can only exit on the read error; the fired
flag stays clear, the channel stays empty, and Stop can only return false. -/
def TmQuiet (s : TmState) : Prop :=
  s.fdOpen = false ∧
  (s.rpc = TmRdPC.atRead ∨ s.rpc = TmRdPC.exitedErr) ∧
  s.fired = false ∧ s.chanLen = 0 ∧ s.ret ≠ some true

/-- Auxiliary: quiescence is preserved by every step. -/
theorem tm_quiet_step (storesFired : Bool) (x y : TmState) (hx : TmQuiet x)
    (hs : TmStep storesFired x y) : TmQuiet y := by
  obtain ⟨h1, h2, h3, h4, h5⟩ := hx
  cases hs <;> simp_all [TmQuiet]

/-- Claim C2 as stated, for the reader selected by storesFired: whenever
Stop has been called (close(t.done) executed) while the alarm has not yet
fired, Stop never returns true and no Alarm is ever queued on the channel
from then on. -/
def timerStopBeforeFireClaim (storesFired : Bool) : Prop :=
  ∀ s₁ s₂ : TmState, TmReach storesFired s₁ →
    s₁.done = true → s₁.alarmFired = false →
    Relation.ReflTransGen (TmStep storesFired) s₁ s₂ →
    s₂.ret ≠ some true ∧ s₂.chanLen = 0

/-- Counterexample for C2, on the NewTimerAt reader: Stop is called before
the alarm fires (close(t.done) runs first), the alarm then fires while the
descriptor is still open, the read succeeds, the select observes done and
leaves the fired flag clear, Stop returns false — and the reader still
executes its unconditional channel send, so an Alarm is queued on the
channel after Stop returned false. -/
theorem timer_stop_before_fire_claim_false : ¬ timerStopBeforeFireClaim true := by
  intro hclaim
  have hreach : TmReach true
      ⟨TmRdPC.atRead, TmStPC.s1, true, true, false, false, 0, none⟩ :=
    Relation.ReflTransGen.single
      (TmStep.stopSignal TmRdPC.atRead false true false false 0 none)
  have hsteps : Relation.ReflTransGen (TmStep true)
      ⟨TmRdPC.atRead, TmStPC.s1, true, true, false, false, 0, none⟩
      ⟨TmRdPC.exitedSent, TmStPC.sdone, true, false, false, true, 1,
        some false⟩ :=
    Relation.ReflTransGen.head
      (TmStep.hwFire TmRdPC.atRead TmStPC.s1 true true false 0 none)
      (Relation.ReflTransGen.head
        (TmStep.readDone TmStPC.s1 true false 0 none)
        (Relation.ReflTransGen.head
          (TmStep.stopCloseFd TmRdPC.atSelect true true false true 0 none)
          (Relation.ReflTransGen.head
            (TmStep.stopReturn TmRdPC.atSelect true false false true 0 none)
            (Relation.ReflTransGen.head
              (TmStep.selectDone TmStPC.sdone true false false true 0
                (some false))
              (Relation.ReflTransGen.single
                (TmStep.send TmStPC.sdone true false false true 0 (some false)
                  (by omega)))))))
  exact absurd (hclaim _ _ hreach rfl rfl hsteps).2 (by decide)

/-- Claim C2 (amended): for a Timer built by either constructor, once Stop's
close of the device descriptor has completed while the alarm has not yet
fired, the blocked read can only fail, the reader exits without sending, the
fired flag stays clear, the channel stays empty forever, and Stop returns
false.  The claim as stated fails only in the race where the alarm fires
between close(t.done) and the close of the descriptor: the reader's send is
unconditional, so an Alarm is still queued although Stop returns false (see
the counterexample). -/
theorem timer_stop_fd_closed_before_fire (storesFired : Bool)
    (s₁ s₂ : TmState) (h1 : TmReach storesFired s₁)
    (h2 : s₁.fdOpen = false) (h3 : s₁.alarmFired = false)
    (h4 : Relation.ReflTransGen (TmStep storesFired) s₁ s₂) :
    s₂.ret ≠ some true ∧ s₂.chanLen = 0 := by
  obtain ⟨i1, i2, i3⟩ := tm_inv_reach storesFired s₁ h1
  have hq₁ : TmQuiet s₁ :=
    ⟨h2, i1 h3, (i2 (i1 h3)).1, (i2 (i1 h3)).2, i3 (i2 (i1 h3)).1⟩
  have hq₂ : TmQuiet s₂ :=
    reach_invariant hq₁ (tm_quiet_step storesFired) h4
  exact ⟨hq₂.2.2.2.2, hq₂.2.2.2.1⟩

/-- Witness for C2: the amended statement evaluated at the concrete state in
which Stop has signalled cancellation and closed the descriptor before any
alarm fired. -/
theorem timer_stop_fd_closed_before_fire_witness :
    TmReach true ⟨TmRdPC.atRead, TmStPC.s2, true, false, false, false, 0, none⟩ ∧
    ((TmState.mk TmRdPC.atRead TmStPC.s2 true false false false 0 none).ret ≠
        some true ∧
     (TmState.mk TmRdPC.atRead TmStPC.s2 true false false false 0 none).chanLen
        = 0) := by
  have hreach : TmReach true
      ⟨TmRdPC.atRead, TmStPC.s2, true, false, false, false, 0, none⟩ :=
    Relation.ReflTransGen.head
      (TmStep.stopSignal TmRdPC.atRead false true false false 0 none)
      (Relation.ReflTransGen.single
        (TmStep.stopCloseFd TmRdPC.atRead true true false false 0 none))
  exact ⟨hreach,
    timer_stop_fd_closed_before_fire true _ _ hreach rfl rfl
      Relation.ReflTransGen.refl⟩

/-- Claim C4 as stated, for the reader selected by storesFired: if the alarm
has already fired before Stop is called, Stop does not return false. -/
def timerStopAfterFireClaim (storesFired : Bool) : Prop :=
  ∀ s₁ s₂ : TmState, TmReach storesFired s₁ →
    s₁.alarmFired = true → s₁.done = false →
    Relation.ReflTransGen (TmStep storesFired) s₁ s₂ →
    s₂.ret ≠ some false

/-- Claim C4 (code bug): for a Timer created by NewTimer, whose reader never
stores the fired flag (the select at src/unnamed/part_005 lines 288-292 has
no store, unlike NewTimerAt's at lines 229-234), Stop returns false even
when the alarm fired, the Alarm was delivered, and the consumer drained it
long before Stop was called. -/
theorem timer_newTimer_stop_after_fire_returns_false :
    ¬ timerStopAfterFireClaim false := by
  intro hclaim
  have hreach : TmReach false
      ⟨TmRdPC.exitedSent, TmStPC.s0, false, true, false, true, 0, none⟩ :=
    Relation.ReflTransGen.head
      (TmStep.hwFire TmRdPC.atRead TmStPC.s0 false true false 0 none)
      (Relation.ReflTransGen.head
        (TmStep.readDone TmStPC.s0 false false 0 none)
        (Relation.ReflTransGen.head
          (TmStep.selectDone TmStPC.s0 false true false true 0 none)
          (Relation.ReflTransGen.head
            (TmStep.send TmStPC.s0 false true false true 0 none (by omega))
            (Relation.ReflTransGen.single
              (TmStep.recv TmRdPC.exitedSent TmStPC.s0 false true false true 0
                none)))))
  have hsteps : Relation.ReflTransGen (TmStep false)
      ⟨TmRdPC.exitedSent, TmStPC.s0, false, true, false, true, 0, none⟩
      ⟨TmRdPC.exitedSent, TmStPC.sdone, true, false, false, true, 0,
        some false⟩ :=
    Relation.ReflTransGen.head
      (TmStep.stopSignal TmRdPC.exitedSent false true false true 0 none)
      (Relation.ReflTransGen.head
        (TmStep.stopCloseFd TmRdPC.exitedSent true true false true 0 none)
        (Relation.ReflTransGen.single
          (TmStep.stopReturn TmRdPC.exitedSent true false false true 0 none)))
  exact absurd (hclaim _ _ hreach rfl rfl hsteps) (by simp)

end Rtc
